import Mathlib

/-!
Shallow embedding of the v4l2-rs capture library (src/src/capture.rs,
src/src/sys/device.rs, src/src/sys/ioctl.rs).

The kernel side of each ioctl is modelled by an oracle (`DeviceModel`):
a function from the request data to the response the kernel would write
back.  The library code itself is translated function by function; machine
integers are modelled by `Nat` (no arithmetic in the translated code ever
overflows its fixed width on the values the claims quantify over).
`io::Result` becomes `Except IoError`.
-/

namespace V4l2

/-- An `std::io::Error`: either a raw OS error code (as produced by
`io::Error::last_os_error()` in `cvt`, device.rs lines 12-18) or the
`ErrorKind::Other` error with message "unsupported pixel format" built in
`Builder::open` (capture.rs lines 211-214). -/
inductive IoError where
  | os : Nat → IoError
  | unsupportedFormat : IoError
deriving DecidableEq, Repr

/-- `struct v4l2_fract` (ioctl.rs lines 80-85). -/
structure v4l2_fract where
  numerator : Nat
  denominator : Nat
deriving DecidableEq, Repr

/-- `struct v4l2_captureparm` (ioctl.rs lines 272-281); the `reserved`
padding words are carried as a list. -/
structure v4l2_captureparm where
  capability : Nat
  capturemode : Nat
  timeperframe : v4l2_fract
  extendedmode : Nat
  readbuffers : Nat
  reserved : List Nat
deriving DecidableEq, Repr

/-- `struct v4l2_pix_format` (ioctl.rs lines 98-111).  The build that
compiles is the `sunxi-vfe` one, where the struct carries the two vendor
fields; `subchannel` is a raw pointer, modelled by its address. -/
structure v4l2_pix_format where
  width : Nat
  height : Nat
  pixelformat : Nat
  field : Nat
  bytesperline : Nat
  sizeimage : Nat
  colorspace : Nat
  priv : Nat
  rot_angle : Nat
  subchannel : Nat
deriving DecidableEq, Repr

/-- `struct v4l2_fmtdesc` (ioctl.rs lines 138-147). -/
structure v4l2_fmtdesc where
  index : Nat
  typ : Nat
  flags : Nat
  description : List Nat
  pixelformat : Nat
  reserved : List Nat
deriving DecidableEq, Repr

/-- `struct v4l2_buffer` (ioctl.rs lines 234-252), with the union `m`
taken in its `offset` arm (the only one the capture path reads,
capture.rs line 48) and `timestamp`/`timecode` flattened to numbers. -/
structure v4l2_buffer where
  index : Nat
  typ : Nat
  bytesused : Nat
  flags : Nat
  field : Nat
  timestamp : Nat
  timecode : Nat
  sequence : Nat
  memory : Nat
  m_offset : Nat
  length : Nat
  input : Nat
  reserved : Nat
deriving DecidableEq, Repr

/-- One `memmap::MmapMut` held by the pool: the mapping created in
`Capture::prepare_mmapped` with length `buf.length` at offset
`buf.m.offset` (capture.rs lines 45-50). -/
structure Region where
  offset : Nat
  length : Nat
deriving DecidableEq, Repr

/-- The `buffers: Vec<MmapMut>` field of `struct Capture`
(capture.rs lines 11-14); the device handle is passed separately as the
oracle. -/
structure CaptureState where
  buffers : List Region
deriving DecidableEq, Repr

/-- Oracle for the kernel side of every ioctl the claims exercise.  Each
component gives the kernel's response to one request; the library never
constrains these responses, so theorems quantify over them. -/
structure DeviceModel where
  /-- Response to `V4l2Device::open` (device.rs lines 28-39). -/
  openR : Except IoError Unit
  /-- `VIDIOC_REQBUFS` (device.rs lines 188-203): given the requested
  count, the kernel writes back the granted count. -/
  reqbufsR : Nat → Except IoError Nat
  /-- `VIDIOC_QUERYBUF` by index (device.rs lines 205-219). -/
  querybuf : Nat → Except IoError v4l2_buffer
  /-- `VIDIOC_ENUM_FMT` by index (device.rs lines 48-56). -/
  enumFmt : Nat → Except IoError v4l2_fmtdesc
  /-- Whether the `mmap` call for a queried buffer succeeds
  (capture.rs lines 45-53). -/
  mmapOk : v4l2_buffer → Bool
  /-- `VIDIOC_QBUF` for the buffer with the given index
  (device.rs lines 230-232). -/
  qbuf : Nat → Except IoError Unit
  /-- `VIDIOC_DQBUF` (device.rs lines 234-243). -/
  dqbufR : Except IoError v4l2_buffer
  /-- `VIDIOC_STREAMON` (device.rs lines 245-247). -/
  streamOnR : Except IoError Unit
  /-- `VIDIOC_S_INPUT` (device.rs lines 184-186). -/
  setInputR : Int → Except IoError Unit
  /-- `VIDIOC_G_PARM` in its capture arm (device.rs lines 137-154). -/
  gParmR : Except IoError v4l2_captureparm
  /-- `VIDIOC_S_PARM`: the kernel's written-back parameters for the
  submitted ones (device.rs lines 147-163). -/
  sParmR : v4l2_captureparm → Except IoError v4l2_captureparm
  /-- `VIDIOC_S_FMT` in its capture arm: written-back pixel format
  (device.rs lines 96-127). -/
  sFmtR : v4l2_pix_format → Except IoError v4l2_pix_format

/-- The enumeration iterators of device.rs (`SupportedFormats` lines
321-332, `SupportedFrameSizes` lines 340-351, `Buffers` lines 360-371)
all have the same `next`: call the enumeration ioctl at the current
index, yield the value and advance on `Ok`, end the iteration on any
`Err` (the error value is dropped).  `collectOk f fuel s` is the list
such an iterator yields from index `s`; `fuel` only bounds the recursion
and is irrelevant as soon as it reaches the first failing index. -/
def collectOk {α : Type} (f : Nat → Except IoError α) : Nat → Nat → List α
  | 0, _ => []
  | fuel + 1, s =>
    match f s with
    | .error _ => []
    | .ok a => a :: collectOk f fuel (s + 1)

/-- `Capture::prepare_mmapped` (capture.rs lines 29-60): request `count`
buffers, clear the pool, then for every buffer the `Buffers` iterator
yields, map it and push the mapping — a slot whose `map_mut` fails is
skipped with no signal (`if let Ok(mmap)`; lines 51-53).  The granted
count `n` is bound but only used in the empty statement
`if self.buffers.len() != n {}` (line 57), so the function returns
`Ok(())` regardless.  The `File::from_raw_fd`/`mem::forget` pair
(lines 39, 55) only affects fd ownership and is modelled with the fd
events below. -/
def prepare_mmapped (d : DeviceModel) (fuel : Nat) (c : CaptureState)
    (count : Nat) : Except IoError CaptureState :=
  match d.reqbufsR count with
  | .error e => .error e
  | .ok _n =>
    .ok { c with
          buffers :=
            (collectOk d.querybuf fuel 0).filterMap fun b =>
              if d.mmapOk b then some (Region.mk b.m_offset b.length) else none }

/-- `Capture::unprepare` (capture.rs lines 62-64): `self.buffers.clear()`.
Dropping each `MmapMut` unmaps its region; the pool is left empty. -/
def unprepare (c : CaptureState) : CaptureState :=
  { c with buffers := [] }

/-- The queue loop of `Capture::start` (capture.rs lines 73-77) from
index `s` for `k` more slots: returns the successfully enqueued indices
in order and, when some `VIDIOC_QBUF` failed, the error that the `?`
operator propagates. -/
def enqueueFrom (qbuf : Nat → Except IoError Unit) :
    Nat → Nat → List Nat × Option IoError
  | _, 0 => ([], none)
  | s, k + 1 =>
    match qbuf s with
    | .error e => ([], some e)
    | .ok _ =>
      let r := enqueueFrom qbuf (s + 1) k
      (s :: r.1, r.2)

/-- `Capture::start` (capture.rs lines 66-81): enqueue indices
`0 .. buffers.len()` in order; only when every enqueue succeeded issue
`VIDIOC_STREAMON`.  Returns (enqueued indices, whether STREAMON was
issued, the result). -/
def start (d : DeviceModel) (c : CaptureState) :
    List Nat × Bool × Except IoError Unit :=
  let r := enqueueFrom d.qbuf 0 c.buffers.length
  match r.2 with
  | some e => (r.1, false, .error e)
  | none => (r.1, true, d.streamOnR)

/-- Outcome of `Capture::take_frame`: an `Err` propagated from
`VIDIOC_DQBUF`, a Rust panic from the unchecked index
`self.buffers[buf.index as usize]`, or the descriptor plus the view into
the slot. -/
inductive TakeResult where
  | err : IoError → TakeResult
  | panicked : Nat → TakeResult
  | ok : v4l2_buffer → Region → TakeResult
deriving DecidableEq, Repr

/-- `Capture::take_frame` (capture.rs lines 88-97): dequeue one buffer,
then index the pool with `buf.index` — Rust's `Vec` indexing panics when
the index is out of bounds.  `dq` is the kernel's `VIDIOC_DQBUF`
response for this call.  The pool itself is never modified. -/
def take_frame (dq : Except IoError v4l2_buffer) (c : CaptureState) :
    TakeResult × CaptureState :=
  match dq with
  | .error e => (.err e, c)
  | .ok b =>
    match c.buffers[b.index]? with
    | none => (.panicked b.index, c)
    | some r => (.ok b r, c)

/-- `Capture::return_frame` (capture.rs lines 99-101): re-enqueue the
buffer via `VIDIOC_QBUF`; `qr` is the kernel's response.  The pool is
not touched. -/
def return_frame (qr : Except IoError Unit) (c : CaptureState) :
    Except IoError Unit × CaptureState :=
  (qr, c)

/-- One `take_frame` / `return_frame` cycle, given the kernel's two
responses for it. -/
def cycle (dq : Except IoError v4l2_buffer) (qr : Except IoError Unit)
    (c : CaptureState) : CaptureState :=
  (return_frame qr (take_frame dq c).2).2

/-- A finite sequence of cycles, one response pair per cycle. -/
def cycles (rs : List (Except IoError v4l2_buffer × Except IoError Unit))
    (c : CaptureState) : CaptureState :=
  rs.foldl (fun s r => cycle r.1 r.2 s) c

/-! ## The session builder (capture.rs lines 112-270) -/

/-- `V4L2_MODE_HIGHQUALITY` (ioctl.rs line 283). -/
def V4L2_MODE_HIGHQUALITY : Nat := 0x0001

/-- `V4L2_CAP_TIMEPERFRAME` (ioctl.rs line 285). -/
def V4L2_CAP_TIMEPERFRAME : Nat := 0x1000

/-- `struct Builder` (capture.rs lines 112-120), without the lifetime on
the path. -/
structure Builder where
  path : String
  input : Option Int
  capturemode : Nat
  timeperframe : v4l2_fract
  format : v4l2_pix_format
deriving DecidableEq, Repr

/-- `Builder::with_device` (capture.rs lines 123-162), in the build that
compiles (`sunxi-vfe`): `rot_angle` is 0 and `subchannel` the null
pointer.  `V4L2_FIELD_ANY = 0`, `V4L2_COLORSPACE_JPEG = 7`
(ioctl.rs lines 21, 50). -/
def Builder.with_device (p : String) : Builder :=
  { path := p
    input := none
    capturemode := 0
    timeperframe := ⟨1, 30⟩
    format :=
      { width := 0, height := 0, pixelformat := 0, field := 0
        bytesperline := 0, sizeimage := 0, colorspace := 7, priv := 0
        rot_angle := 0, subchannel := 0 } }

/-- `Builder::default` = `Builder::with_device("/dev/video0")`
(capture.rs lines 266-270). -/
def Builder.defaultB : Builder := Builder.with_device "/dev/video0"

/-- `Builder::device` (capture.rs lines 164-167). -/
def Builder.device (b : Builder) (p : String) : Builder :=
  { b with path := p }

/-- `Builder::input` (capture.rs lines 169-172). -/
def Builder.input_ (b : Builder) (i : Int) : Builder :=
  { b with input := some i }

/-- `Builder::high_quality` (capture.rs lines 174-177). -/
def Builder.high_quality (b : Builder) : Builder :=
  { b with capturemode := V4L2_MODE_HIGHQUALITY }

/-- `Builder::video_size` (capture.rs lines 179-183). -/
def Builder.video_size (b : Builder) (w h : Nat) : Builder :=
  { b with format := { b.format with width := w, height := h } }

/-- `Builder::pixel_format` (capture.rs lines 185-188). -/
def Builder.pixel_format (b : Builder) (fmt : Nat) : Builder :=
  { b with format := { b.format with pixelformat := fmt } }

/-- `Builder::progressive` (capture.rs lines 190-193);
`V4L2_FIELD_NONE = 1`. -/
def Builder.progressive (b : Builder) : Builder :=
  { b with format := { b.format with field := 1 } }

/-- `Builder::time_per_frame` (capture.rs lines 195-199). -/
def Builder.time_per_frame (b : Builder) (num den : Nat) : Builder :=
  { b with timeperframe := ⟨num, den⟩ }

/-- One configuration write `Builder::open` performs on the device:
`VIDIOC_S_INPUT`, `VIDIOC_S_PARM` or `VIDIOC_S_FMT`, with the value
submitted to the kernel. -/
inductive DevWrite where
  | setInput : Int → DevWrite
  | setParm : v4l2_captureparm → DevWrite
  | setFmt : v4l2_pix_format → DevWrite
deriving DecidableEq, Repr

/-- The stream parameters `Builder::open` submits (capture.rs lines
221-230): the device's current capture parameters with `capturemode`
overwritten unconditionally and `timeperframe` overwritten exactly when
the `V4L2_CAP_TIMEPERFRAME` bit is set in the reported capability. -/
def negotiated_parm (b : Builder) (p : v4l2_captureparm) : v4l2_captureparm :=
  { p with
    capturemode := b.capturemode
    timeperframe :=
      if p.capability &&& V4L2_CAP_TIMEPERFRAME ≠ 0 then b.timeperframe
      else p.timeperframe }

/-- The tail of `Builder::open` from `video.capture_parm()?` on
(capture.rs lines 221-239): read the capture parameters, negotiate them,
write them back, then write the pixel format; `tr` is the list of writes
already issued. -/
def Builder.openParm (b : Builder) (d : DeviceModel) (tr : List DevWrite) :
    Except IoError CaptureState × List DevWrite :=
  match d.gParmR with
  | .error e => (.error e, tr)
  | .ok p =>
    let p1 := negotiated_parm b p
    match d.sParmR p1 with
    | .error e => (.error e, tr ++ [.setParm p1])
    | .ok _ =>
      match d.sFmtR b.format with
      | .error e => (.error e, tr ++ [.setParm p1, .setFmt b.format])
      | .ok _ => (.ok ⟨[]⟩, tr ++ [.setParm p1, .setFmt b.format])

/-- `Builder::open` (capture.rs lines 201-240).  Returns the result and
the ordered list of configuration writes issued to the device.  Steps:
open the device; walk `supported_formats` with `find` — when no
enumerated descriptor carries the requested `pixelformat`, return the
"unsupported pixel format" error; apply the input index when one was
set; then negotiate parameters and set the format (`Builder.openParm`);
on success return the fresh `Capture` (empty pool). -/
def Builder.openDev (b : Builder) (d : DeviceModel) (fuel : Nat) :
    Except IoError CaptureState × List DevWrite :=
  match d.openR with
  | .error e => (.error e, [])
  | .ok _ =>
    let fmts := collectOk d.enumFmt fuel 0
    if (fmts.find? fun fd => fd.pixelformat == b.format.pixelformat).isNone then
      (.error .unsupportedFormat, [])
    else
      match b.input with
      | some i =>
        match d.setInputR i with
        | .error e => (.error e, [.setInput i])
        | .ok _ => Builder.openParm b d [.setInput i]
      | none => Builder.openParm b d []

/-! ## File-descriptor lifecycle (claim C7)

`V4l2Device` owns one raw fd (device.rs lines 22-25).  The events below
record every `close(2)` a given operation performs, including the ones
Rust inserts implicitly when a value whose type implements `Drop` goes
out of scope. -/

/-- The `fd` field of `V4l2Device`. -/
structure RawDevice where
  fd : Int
deriving DecidableEq, Repr

/-- `impl Drop for V4l2Device` (device.rs lines 285-292): one
`libc::close(self.fd)`. -/
def dropDevice (v : RawDevice) : List Int :=
  [v.fd]

/-- `impl IntoRawFd for V4l2Device` (device.rs lines 301-306):
`fn into_raw_fd(self) -> i32 { self.fd }`.  The body copies `self.fd`
and returns it; `self` is NOT wrapped in `ManuallyDrop` and no
`mem::forget(self)` is called, so at the end of the body Rust drops
`self`, and since `V4l2Device` implements `Drop` that runs
`libc::close(self.fd)`.  Result: the returned fd, paired with the close
events the call performs. -/
def into_raw_fd (v : RawDevice) : Int × List Int :=
  (v.fd, dropDevice v)

/-- The fd closes performed by `Capture::prepare_mmapped`
(capture.rs lines 39-55): `File::from_raw_fd(fd)` creates a `File` that
would close `fd` when dropped, but `mem::forget(f)` (line 55) runs on
every path out of the loop before `f` goes out of scope, so the drop
never runs and no close is performed. -/
def prepare_mmapped_closes (_v : RawDevice) : List Int :=
  []

/-! ## Binary layout of the control structures (claim C8)

A layout is the ordered list of a struct's fields with their sizes in
bytes on the 32-bit ARM target the crate addresses (`c_int`, `c_ulong`,
pointers and `repr(C)` enums are 4 bytes; `timeval` and `timespec` are
two 4-byte words).  The `*_layout` definitions below transcribe the
`#[repr(C)]` declarations of ioctl.rs; a union member is one entry whose
size is that of its largest arm.  C keyword field names that the Rust
source renames are written with their C spelling (`type` for Rust `typ`,
`priv` for Rust `private`).  The `kernel_*_layout` definitions are the
spec side of the comparison: the layouts §6 of the spec demands,
transcribed from the kernel's `videodev2.h` declarations of the same
structures. -/

/-- `struct v4l2_pix_format` as declared in ioctl.rs lines 98-111. -/
def pix_format_layout : List (String × Nat) :=
  [("width", 4), ("height", 4), ("pixelformat", 4), ("field", 4),
   ("bytesperline", 4), ("sizeimage", 4), ("colorspace", 4), ("priv", 4),
   ("rot_angle", 4), ("subchannel", 4)]

/-- The kernel's `struct v4l2_pix_format` (videodev2.h): exactly the
fields of the spec's PixelFormat (§3) plus the `priv` reserved word — no
vendor fields. -/
def kernel_pix_format_layout : List (String × Nat) :=
  [("width", 4), ("height", 4), ("pixelformat", 4), ("field", 4),
   ("bytesperline", 4), ("sizeimage", 4), ("colorspace", 4), ("priv", 4)]

/-- `struct v4l2_buffer` as declared in ioctl.rs lines 234-252; `m` is
the 4-byte union of `offset`/`userptr`/`planes`. -/
def buffer_layout : List (String × Nat) :=
  [("index", 4), ("type", 4), ("bytesused", 4), ("flags", 4),
   ("field", 4), ("timestamp", 8), ("timecode", 16), ("sequence", 4),
   ("memory", 4), ("m", 4), ("length", 4), ("input", 4), ("reserved", 4)]

/-- The kernel's `struct v4l2_buffer` (videodev2.h with the `input`
word, as on the vendor kernels this crate drives) on 32-bit. -/
def kernel_buffer_layout : List (String × Nat) :=
  [("index", 4), ("type", 4), ("bytesused", 4), ("flags", 4),
   ("field", 4), ("timestamp", 8), ("timecode", 16), ("sequence", 4),
   ("memory", 4), ("m", 4), ("length", 4), ("input", 4), ("reserved", 4)]

/-- `struct v4l2_capability` as declared in ioctl.rs lines 87-96. -/
def capability_layout : List (String × Nat) :=
  [("driver", 16), ("card", 32), ("bus_info", 32), ("version", 4),
   ("capabilities", 4), ("device_caps", 4), ("reserved", 12)]

/-- The kernel's `struct v4l2_capability`. -/
def kernel_capability_layout : List (String × Nat) :=
  [("driver", 16), ("card", 32), ("bus_info", 32), ("version", 4),
   ("capabilities", 4), ("device_caps", 4), ("reserved", 12)]

/-- `struct v4l2_captureparm` as declared in ioctl.rs lines 272-281. -/
def captureparm_layout : List (String × Nat) :=
  [("capability", 4), ("capturemode", 4), ("timeperframe", 8),
   ("extendedmode", 4), ("readbuffers", 4), ("reserved", 16)]

/-- The kernel's `struct v4l2_captureparm`. -/
def kernel_captureparm_layout : List (String × Nat) :=
  [("capability", 4), ("capturemode", 4), ("timeperframe", 8),
   ("extendedmode", 4), ("readbuffers", 4), ("reserved", 16)]

/-- `struct v4l2_streamparm` as declared in ioctl.rs lines 365-369:
the union arm `raw_data: [u8; 200]` fixes the union size at 200. -/
def streamparm_layout : List (String × Nat) :=
  [("type", 4), ("parm", 200)]

/-- The kernel's `struct v4l2_streamparm`. -/
def kernel_streamparm_layout : List (String × Nat) :=
  [("type", 4), ("parm", 200)]

/-- `struct v4l2_frmsizeenum` as declared in ioctl.rs lines 180-189:
the union of `discrete` (8) and `stepwise` (24) is 24 bytes. -/
def frmsizeenum_layout : List (String × Nat) :=
  [("index", 4), ("pixel_format", 4), ("type", 4), ("union", 24),
   ("reserved", 8)]

/-- The kernel's `struct v4l2_frmsizeenum`. -/
def kernel_frmsizeenum_layout : List (String × Nat) :=
  [("index", 4), ("pixel_format", 4), ("type", 4), ("union", 24),
   ("reserved", 8)]

/-- `struct v4l2_event` as declared in ioctl.rs lines 413-422: the
union arm `data: [u8; 64]` fixes the union size at 64. -/
def event_layout : List (String × Nat) :=
  [("type", 4), ("u", 64), ("pending", 4), ("sequence", 4),
   ("timestamp", 8), ("id", 4), ("reserved", 32)]

/-- The kernel's `struct v4l2_event`. -/
def kernel_event_layout : List (String × Nat) :=
  [("type", 4), ("u", 64), ("pending", 4), ("sequence", 4),
   ("timestamp", 8), ("id", 4), ("reserved", 32)]

/-- `enum v4l2_memory` discriminants as declared in ioctl.rs
lines 33-39. -/
def memory_values : List (String × Nat) :=
  [("V4L2_MEMORY_MMAP", 1), ("V4L2_MEMORY_USERPTR", 2),
   ("V4L2_MEMORY_OVERLAY", 3)]

/-- The kernel's `enum v4l2_memory` values. -/
def kernel_memory_values : List (String × Nat) :=
  [("V4L2_MEMORY_MMAP", 1), ("V4L2_MEMORY_USERPTR", 2),
   ("V4L2_MEMORY_OVERLAY", 3)]

/-- `enum v4l2_buf_type` discriminants as declared in ioctl.rs
lines 54-69. -/
def buf_type_values : List (String × Nat) :=
  [("V4L2_BUF_TYPE_VIDEO_CAPTURE", 1), ("V4L2_BUF_TYPE_VIDEO_OUTPUT", 2),
   ("V4L2_BUF_TYPE_VIDEO_OVERLAY", 3), ("V4L2_BUF_TYPE_VBI_CAPTURE", 4),
   ("V4L2_BUF_TYPE_VBI_OUTPUT", 5),
   ("V4L2_BUF_TYPE_SLICED_VBI_CAPTURE", 6),
   ("V4L2_BUF_TYPE_SLICED_VBI_OUTPUT", 7),
   ("V4L2_BUF_TYPE_VIDEO_OUTPUT_OVERLAY", 8),
   ("V4L2_BUF_TYPE_VIDEO_CAPTURE_MPLANE", 9),
   ("V4L2_BUF_TYPE_VIDEO_OUTPUT_MPLANE", 10),
   ("V4L2_BUF_TYPE_PRIVATE", 0x80)]

/-- The kernel's `enum v4l2_buf_type` values. -/
def kernel_buf_type_values : List (String × Nat) :=
  [("V4L2_BUF_TYPE_VIDEO_CAPTURE", 1), ("V4L2_BUF_TYPE_VIDEO_OUTPUT", 2),
   ("V4L2_BUF_TYPE_VIDEO_OVERLAY", 3), ("V4L2_BUF_TYPE_VBI_CAPTURE", 4),
   ("V4L2_BUF_TYPE_VBI_OUTPUT", 5),
   ("V4L2_BUF_TYPE_SLICED_VBI_CAPTURE", 6),
   ("V4L2_BUF_TYPE_SLICED_VBI_OUTPUT", 7),
   ("V4L2_BUF_TYPE_VIDEO_OUTPUT_OVERLAY", 8),
   ("V4L2_BUF_TYPE_VIDEO_CAPTURE_MPLANE", 9),
   ("V4L2_BUF_TYPE_VIDEO_OUTPUT_MPLANE", 10),
   ("V4L2_BUF_TYPE_PRIVATE", 0x80)]

/-! ## Concrete device models for evaluating the theorems -/

/-- A sample `v4l2_buffer` descriptor, as `VIDIOC_QUERYBUF` would fill
it for slot `i` of an MMAP pool of 4096-byte buffers. -/
def sampleBuf (i : Nat) : v4l2_buffer :=
  { index := i, typ := 1, bytesused := 0, flags := 0, field := 0
    timestamp := 0, timecode := 0, sequence := 0, memory := 1
    m_offset := 4096 * i, length := 4096, input := 0, reserved := 0 }

/-- A sample `v4l2_fmtdesc`, advertising the YUYV fourcc
(0x56595559). -/
def sampleFmt (i : Nat) : v4l2_fmtdesc :=
  { index := i, typ := 1, flags := 0, description := []
    pixelformat := 0x56595559, reserved := [0, 0, 0, 0] }

/-- Sample capture parameters whose capability word has the
`V4L2_CAP_TIMEPERFRAME` bit set. -/
def sampleParm : v4l2_captureparm :=
  { capability := 0x1000, capturemode := 0, timeperframe := ⟨1, 30⟩
    extendedmode := 0, readbuffers := 2, reserved := [0, 0, 0, 0] }

/-- A device model that grants exactly what is asked, exposes three
buffer slots and two YUYV format descriptors, and answers every other
request successfully. -/
def okDevice : DeviceModel :=
  { openR := .ok ()
    reqbufsR := fun n => .ok n
    querybuf := fun i => if i < 3 then .ok (sampleBuf i) else .error (.os 22)
    enumFmt := fun i => if i < 2 then .ok (sampleFmt i) else .error (.os 22)
    mmapOk := fun _ => true
    qbuf := fun _ => .ok ()
    dqbufR := .ok (sampleBuf 1)
    streamOnR := .ok ()
    setInputR := fun _ => .ok ()
    gParmR := .ok sampleParm
    sParmR := fun p => .ok p
    sFmtR := fun f => .ok f }

/-- A device model with three granted buffer slots that answers
`VIDIOC_REQBUFS` for any requested count with 2 — more than a request
of 1, as `VIDIOC_REQBUFS` is allowed to do. -/
def overGrantDevice : DeviceModel :=
  { okDevice with
    reqbufsR := fun _ => .ok 2
    querybuf := fun i => if i < 2 then .ok (sampleBuf i) else .error (.os 22) }

/-- A device model whose format enumeration faults immediately with an
OS error. -/
def faultyEnumDevice : DeviceModel :=
  { okDevice with enumFmt := fun _ => .error (.os 5) }

/-- A format enumeration oracle that yields one descriptor and then
faults with `EIO` (5). -/
def faultFmtsA : Nat → Except IoError v4l2_fmtdesc := fun i =>
  if i < 1 then .ok (sampleFmt i) else .error (.os 5)

/-- A format enumeration oracle that yields the same one descriptor and
then faults with `ENODEV` (19). -/
def faultFmtsB : Nat → Except IoError v4l2_fmtdesc := fun i =>
  if i < 1 then .ok (sampleFmt i) else .error (.os 19)

/-- A builder configuration requesting the YUYV format on input 1. -/
def sampleBuilder : Builder :=
  Builder.input_ (Builder.pixel_format (Builder.with_device "/dev/video0")
    0x56595559) 1

/-- A two-slot pool. -/
def samplePool : CaptureState :=
  ⟨[⟨0, 4096⟩, ⟨4096, 4096⟩]⟩

/-- A device model that rejects the enqueue of index 1 with `EBUSY`
(16) and accepts every other one. -/
def failQbufDevice : DeviceModel :=
  { okDevice with
    qbuf := fun i => if i = 1 then .error (.os 16) else .ok () }

/-! ## Helper lemmas -/

/-- Unfolding of `collectOk` at positive fuel. -/
theorem collectOk_succ {α : Type} (f : Nat → Except IoError α) (m s : Nat) :
    collectOk f (m + 1) s
      = match f s with
        | .error _ => []
        | .ok a => a :: collectOk f m (s + 1) := rfl

/-- An iterator whose underlying call fails at its current index yields
nothing: the error value is dropped. -/
theorem collectOk_stop {α : Type} (f : Nat → Except IoError α)
    (fuel s : Nat) (h : ∃ e, f s = .error e) : collectOk f fuel s = [] := by
  obtain ⟨e, he⟩ := h
  cases fuel with
  | zero => rfl
  | succ m => rw [collectOk_succ, he]

/-- Two enumeration oracles that agree up to an index at which both
fail yield the same list: a fault is indistinguishable from the end of
the enumeration. -/
theorem collectOk_congr {α : Type} (f g : Nat → Except IoError α) (i : Nat)
    (hagree : ∀ j, j < i → f j = g j)
    (hf : ∃ e, f i = .error e) (hg : ∃ e, g i = .error e) :
    ∀ fuel s, s ≤ i → collectOk f fuel s = collectOk g fuel s := by
  intro fuel
  induction fuel with
  | zero => intro s _; rfl
  | succ m ih =>
    intro s hs
    rcases Nat.lt_or_eq_of_le hs with hlt | heq
    · rw [collectOk_succ, collectOk_succ, hagree s hlt]
      cases g s with
      | error e => rfl
      | ok a => rw [ih (s + 1) hlt]
    · subst heq
      obtain ⟨e, he⟩ := hf
      obtain ⟨e', he'⟩ := hg
      rw [collectOk_succ, collectOk_succ, he, he']

/-- The list an enumeration iterator yields from an oracle that
succeeds exactly below `n`, with enough fuel. -/
theorem collectOk_ite {α : Type} (g : Nat → α) (n : Nat) (e : IoError) :
    ∀ fuel s, n ≤ s + fuel →
      collectOk (fun i => if i < n then Except.ok (g i) else Except.error e)
          fuel s
        = (List.range' s (n - s)).map g := by
  intro fuel
  induction fuel with
  | zero =>
    intro s h
    have h0 : n - s = 0 := by omega
    rw [h0]
    rfl
  | succ m ih =>
    intro s h
    by_cases hs : s < n
    · have h1 : n - s = (n - (s + 1)) + 1 := by omega
      rw [collectOk_succ, h1, List.range'_succ, List.map_cons]
      simp only [hs, if_pos]
      rw [ih (s + 1) (by omega)]
    · have h0 : n - s = 0 := by omega
      rw [collectOk_succ, h0]
      simp only [hs, if_neg, not_false_iff]
      rfl

/-- A `filterMap` that drops at least one member of the list is
strictly shorter than the list. -/
theorem length_filterMap_lt {α β : Type} (f : α → Option β) :
    ∀ (l : List α) (x : α), x ∈ l → f x = none →
      (l.filterMap f).length < l.length := by
  intro l
  induction l with
  | nil => intro x hx; cases hx
  | cons a t ih =>
    intro x hx hfx
    rcases List.mem_cons.mp hx with rfl | hxt
    · simp only [List.filterMap_cons, hfx, List.length_cons]
      exact Nat.lt_succ_of_le (List.length_filterMap_le f t)
    · simp only [List.filterMap_cons, List.length_cons]
      cases hfa : f a with
      | none => exact Nat.lt_succ_of_le (Nat.le_of_lt (ih x hxt hfx))
      | some b => exact Nat.succ_lt_succ (ih x hxt hfx)

/-- Unfolding of the queue loop of `start` at a positive remaining
count. -/
theorem enqueueFrom_succ (q : Nat → Except IoError Unit) (s m : Nat) :
    enqueueFrom q s (m + 1)
      = match q s with
        | .error e => ([], some e)
        | .ok _ => (s :: (enqueueFrom q (s + 1) m).1,
                    (enqueueFrom q (s + 1) m).2) := rfl

/-- When every enqueue succeeds, the loop enqueues all indices in
ascending order and reports no error. -/
theorem enqueueFrom_all_ok (q : Nat → Except IoError Unit) :
    ∀ (k s : Nat), (∀ j, s ≤ j → j < s + k → q j = .ok ()) →
      enqueueFrom q s k = (List.range' s k, none) := by
  intro k
  induction k with
  | zero => intro s _; rfl
  | succ m ih =>
    intro s h
    rw [enqueueFrom_succ, h s (Nat.le_refl s) (by omega),
      ih (s + 1) (fun j h1 h2 => h j (by omega) (by omega)),
      List.range'_succ]

/-- When the first failing enqueue is at index `i`, the loop stops
there: only the indices below `i` are enqueued and the error is
reported. -/
theorem enqueueFrom_fail (q : Nat → Except IoError Unit) (i : Nat)
    (e : IoError) (hie : q i = .error e) :
    ∀ (k s : Nat), s ≤ i → i < s + k →
      (∀ j, s ≤ j → j < i → q j = .ok ()) →
      enqueueFrom q s k = (List.range' s (i - s), some e) := by
  intro k
  induction k with
  | zero => intro s h1 h2 _; omega
  | succ m ih =>
    intro s hsi hik hok
    rw [enqueueFrom_succ]
    rcases Nat.lt_or_eq_of_le hsi with hlt | heq
    · rw [hok s (Nat.le_refl s) hlt,
        ih (s + 1) hlt (by omega) (fun j hj1 hj2 => hok j (by omega) hj2)]
      have h1 : i - s = (i - (s + 1)) + 1 := by omega
      rw [h1, List.range'_succ]
    · subst heq
      rw [hie]
      have h0 : s - s = 0 := by omega
      rw [h0]
      rfl

/-- A `filterMap` that keeps every member of the list preserves its
length. -/
theorem length_filterMap_of_all_some {α β : Type} (f : α → Option β) :
    ∀ l : List α, (∀ x ∈ l, (f x).isSome) →
      (l.filterMap f).length = l.length := by
  intro l
  induction l with
  | nil => intro _; rfl
  | cons a t ih =>
    intro h
    obtain ⟨b, hb⟩ := Option.isSome_iff_exists.mp (h a (List.mem_cons_self a t))
    simp only [List.filterMap_cons, hb, List.length_cons]
    rw [ih (fun x hx => h x (List.mem_cons_of_mem a hx))]

/-- `take_frame` never modifies the pool (capture.rs lines 88-97 only
read `self.buffers`). -/
theorem take_frame_state (dq : Except IoError v4l2_buffer)
    (c : CaptureState) : (take_frame dq c).2 = c := by
  cases dq with
  | error e => rfl
  | ok b =>
    cases hg : c.buffers[b.index]? <;> simp [take_frame, hg]

/-! ## Claim theorems -/

/-- C1 (amended): against a kernel that grants `g` buffers on a request
of `N` — `VIDIOC_QUERYBUF` succeeding exactly for indices below `g` —
`prepare_mmapped N` returns `Ok` unconditionally and yields a pool of
size `M ≤ g`; `M = g` when no individual mapping fails; `M ≤ N`
whenever `g ≤ N`; and a slot whose mapping fails is skipped with no
signal, leaving `M < g`.  The unconditional `M ≤ N` of the original
claim fails because `VIDIOC_REQBUFS` may grant more buffers than
requested (see the counterexample). -/
theorem prepare_pool_size (d : DeviceModel) (fuel N g : Nat)
    (descFn : Nat → v4l2_buffer) (e : IoError) (c : CaptureState)
    (hreq : d.reqbufsR N = .ok g)
    (hq : d.querybuf
        = fun i => if i < g then .ok (descFn i) else .error e)
    (hfuel : g ≤ fuel) :
    ∃ c', prepare_mmapped d fuel c N = .ok c'
      ∧ c'.buffers.length ≤ g
      ∧ ((∀ b, d.mmapOk b = true) → c'.buffers.length = g)
      ∧ (g ≤ N → c'.buffers.length ≤ g ∧ c'.buffers.length ≤ N)
      ∧ (∀ i, i < g → d.mmapOk (descFn i) = false →
          c'.buffers.length < g) := by
  have hco : collectOk d.querybuf fuel 0 = (List.range g).map descFn := by
    rw [hq, collectOk_ite descFn g e fuel 0 (by omega), Nat.sub_zero,
      ← List.range_eq_range']
  have hlen : (((List.range g).map descFn).filterMap fun b =>
      if d.mmapOk b then some (Region.mk b.m_offset b.length) else none).length ≤ g := by
    calc (((List.range g).map descFn).filterMap fun b =>
          if d.mmapOk b then some (Region.mk b.m_offset b.length) else none).length
        ≤ ((List.range g).map descFn).length := List.length_filterMap_le _ _
      _ = g := by rw [List.length_map, List.length_range]
  refine ⟨⟨((List.range g).map descFn).filterMap fun b =>
      if d.mmapOk b then some (Region.mk b.m_offset b.length) else none⟩,
    ?_, hlen, ?_, ?_, ?_⟩
  · simp [prepare_mmapped, hreq, hco]
  · intro hm
    have hall : ∀ x ∈ (List.range g).map descFn,
        ((fun b => if d.mmapOk b then
            some (Region.mk b.m_offset b.length) else none) x).isSome := by
      intro x _
      simp [hm x]
    rw [length_filterMap_of_all_some _ _ hall, List.length_map,
      List.length_range]
  · intro hgN
    exact ⟨hlen, Nat.le_trans hlen hgN⟩
  · intro i hi hmi
    have hmem : descFn i ∈ (List.range g).map descFn :=
      List.mem_map_of_mem descFn (List.mem_range.mpr hi)
    have hnone : (fun b => if d.mmapOk b then
        some (Region.mk b.m_offset b.length) else none) (descFn i) = none := by
      simp [hmi]
    have := length_filterMap_lt
      (fun b => if d.mmapOk b then some (Region.mk b.m_offset b.length)
        else none)
      ((List.range g).map descFn) (descFn i) hmem hnone
    calc (((List.range g).map descFn).filterMap fun b =>
          if d.mmapOk b then some (Region.mk b.m_offset b.length) else none).length
        < ((List.range g).map descFn).length := this
      _ = g := by rw [List.length_map, List.length_range]

/-- C1 counterexample: a device that grants 2 buffers on a request
of 1 — which `VIDIOC_REQBUFS` is allowed to do — makes
`prepare_mmapped 1` produce a pool of size 2, refuting `M ≤ N`. -/
theorem prepare_pool_exceeds_request :
    prepare_mmapped overGrantDevice 2 ⟨[]⟩ 1
        = .ok ⟨[⟨0, 4096⟩, ⟨4096, 4096⟩]⟩
    ∧ ¬((2 : Nat) ≤ 1) :=
  ⟨rfl, by decide⟩

/-- C1 witness: on a device granting exactly what is asked,
`prepare_mmapped 3` yields all the guarantees of the amended claim. -/
theorem prepare_pool_size_witness :
    ∃ c', prepare_mmapped okDevice 4 ⟨[]⟩ 3 = .ok c'
      ∧ c'.buffers.length ≤ 3
      ∧ ((∀ b, okDevice.mmapOk b = true) → c'.buffers.length = 3)
      ∧ (3 ≤ 3 → c'.buffers.length ≤ 3 ∧ c'.buffers.length ≤ 3)
      ∧ (∀ i, i < 3 → okDevice.mmapOk (sampleBuf i) = false →
          c'.buffers.length < 3) :=
  prepare_pool_size okDevice 4 3 3 sampleBuf (.os 22) ⟨[]⟩ rfl rfl
    (by decide)

/-- C2: for a pool of size `N`, `start` enqueues exactly the indices
`0 .. N-1` in ascending order and issues stream-on only after all `N`
enqueues succeeded; when the enqueue of index `i` fails, the indices
below `i` stay enqueued (no rollback), no index above `i` is enqueued,
stream-on is never issued, and the error is returned. -/
theorem start_enqueue_order (d : DeviceModel) (c : CaptureState) :
    ((∀ i, i < c.buffers.length → d.qbuf i = .ok ()) →
        start d c = (List.range c.buffers.length, true, d.streamOnR))
    ∧ (∀ i e, i < c.buffers.length → d.qbuf i = .error e →
        (∀ j, j < i → d.qbuf j = .ok ()) →
        start d c = (List.range i, false, .error e)) := by
  constructor
  · intro h
    have he := enqueueFrom_all_ok d.qbuf c.buffers.length 0
      (fun j _ h2 => h j (by omega))
    simp [start, he, List.range_eq_range']
  · intro i e hi hie hok
    have he := enqueueFrom_fail d.qbuf i e hie c.buffers.length 0
      (by omega) (by omega) (fun j _ h2 => hok j h2)
    simp [start, he, List.range_eq_range']

/-- C2 witness: starting a two-slot pool on a device that accepts every
enqueue queues `[0, 1]` and issues stream-on; on a device rejecting the
enqueue of index 1, only index 0 is queued, stream-on is not issued,
and the error comes back. -/
theorem start_enqueue_order_witness :
    start okDevice samplePool
      = (List.range samplePool.buffers.length, true, okDevice.streamOnR)
    ∧ start failQbufDevice samplePool
      = (List.range 1, false, .error (.os 16)) :=
  ⟨(start_enqueue_order okDevice samplePool).1 (fun _ _ => rfl),
   (start_enqueue_order failQbufDevice samplePool).2 1 (.os 16)
     (by decide) rfl
     (fun j hj => by
       have hj0 : j = 0 := by omega
       rw [hj0]
       rfl)⟩

/-- C3: when the requested pixel format code is carried by none of the
format descriptors the device enumerates, `Builder::open` fails with the
"unsupported pixel format" error and performs no configuration write —
no input selection, no stream parameters, no pixel format. -/
theorem open_unsupported_format (b : Builder) (d : DeviceModel)
    (fuel : Nat) (hopen : d.openR = .ok ())
    (habsent : ∀ fd ∈ collectOk d.enumFmt fuel 0,
        fd.pixelformat ≠ b.format.pixelformat) :
    Builder.openDev b d fuel = (.error .unsupportedFormat, []) := by
  have hfind : (collectOk d.enumFmt fuel 0).find?
      (fun fd => fd.pixelformat == b.format.pixelformat) = none := by
    rw [List.find?_eq_none]
    intro x hx
    simpa using habsent x hx
  simp [Builder.openDev, hopen, hfind]

/-- C3 witness: requesting format code 999, which the device never
advertises, makes `open` fail with the unsupported-format error and an
empty write trace. -/
theorem open_unsupported_format_witness :
    Builder.openDev
        (Builder.pixel_format (Builder.with_device "/dev/video0") 999)
        okDevice 3
      = (.error .unsupportedFormat, []) :=
  open_unsupported_format
    (Builder.pixel_format (Builder.with_device "/dev/video0") 999)
    okDevice 3 rfl (by decide)

/-- C4: on the all-success path `Builder::open` writes to the device
exactly the input index (only when one was set), then the negotiated
stream parameters, then the pixel format, in that order; the submitted
parameters carry the builder's capture mode unconditionally while the
builder's frame time replaces the device's current one exactly when the
`V4L2_CAP_TIMEPERFRAME` bit of the reported capability is set.  The
builder setters above are pure record updates with no device argument,
so nothing is written before `open`. -/
theorem open_apply_order (b : Builder) (d : DeviceModel) (fuel : Nat)
    (p p' : v4l2_captureparm) (f' : v4l2_pix_format)
    (hopen : d.openR = .ok ())
    (hfound : ((collectOk d.enumFmt fuel 0).find?
        (fun fd => fd.pixelformat == b.format.pixelformat)).isSome)
    (hin : ∀ i, b.input = some i → d.setInputR i = .ok ())
    (hg : d.gParmR = .ok p)
    (hsp : d.sParmR (negotiated_parm b p) = .ok p')
    (hsf : d.sFmtR b.format = .ok f') :
    Builder.openDev b d fuel
      = (.ok ⟨[]⟩,
          (match b.input with
           | some i => [DevWrite.setInput i]
           | none => []) ++
            [DevWrite.setParm (negotiated_parm b p),
             DevWrite.setFmt b.format])
    ∧ (negotiated_parm b p).capturemode = b.capturemode
    ∧ (p.capability &&& V4L2_CAP_TIMEPERFRAME ≠ 0 →
        (negotiated_parm b p).timeperframe = b.timeperframe)
    ∧ (p.capability &&& V4L2_CAP_TIMEPERFRAME = 0 →
        (negotiated_parm b p).timeperframe = p.timeperframe) := by
  refine ⟨?_, rfl, ?_, ?_⟩
  · obtain ⟨v, hv⟩ := Option.isSome_iff_exists.mp hfound
    have hparm : Builder.openParm b d
        = fun tr => (.ok ⟨[]⟩, tr ++ [DevWrite.setParm (negotiated_parm b p),
            DevWrite.setFmt b.format]) := by
      funext tr
      simp [Builder.openParm, hg, hsp, hsf]
    cases hbi : b.input with
    | none => simp [Builder.openDev, hopen, hv, hbi, hparm]
    | some i => simp [Builder.openDev, hopen, hv, hbi, hin i hbi, hparm]
  · intro h
    simp [negotiated_parm, h]
  · intro h
    simp [negotiated_parm, h]

/-- C4 witness: the sample builder (input 1, YUYV) on the sample device
produces exactly the trace input, parameters, format. -/
theorem open_apply_order_witness :
    Builder.openDev sampleBuilder okDevice 3
      = (.ok ⟨[]⟩,
          (match sampleBuilder.input with
           | some i => [DevWrite.setInput i]
           | none => []) ++
            [DevWrite.setParm (negotiated_parm sampleBuilder sampleParm),
             DevWrite.setFmt sampleBuilder.format])
    ∧ (negotiated_parm sampleBuilder sampleParm).capturemode
        = sampleBuilder.capturemode
    ∧ (sampleParm.capability &&& V4L2_CAP_TIMEPERFRAME ≠ 0 →
        (negotiated_parm sampleBuilder sampleParm).timeperframe
          = sampleBuilder.timeperframe)
    ∧ (sampleParm.capability &&& V4L2_CAP_TIMEPERFRAME = 0 →
        (negotiated_parm sampleBuilder sampleParm).timeperframe
          = sampleParm.timeperframe) :=
  open_apply_order sampleBuilder okDevice 3 sampleParm
    (negotiated_parm sampleBuilder sampleParm) sampleBuilder.format
    rfl (by decide) (fun _ _ => rfl) rfl rfl rfl

/-- C5: neither `take_frame` nor `return_frame` ever changes the pool:
after any finite sequence of cycles — whatever descriptors the kernel
reports — the pool's slot list (its length and the index-to-region
mapping) is exactly what it was. -/
theorem take_return_pool_invariant :
    ∀ (rs : List (Except IoError v4l2_buffer × Except IoError Unit))
      (dq : Except IoError v4l2_buffer) (qr : Except IoError Unit)
      (c : CaptureState),
      cycles rs c = c
      ∧ (take_frame dq c).2 = c
      ∧ (return_frame qr c).2 = c := by
  intro rs dq qr c
  refine ⟨?_, take_frame_state dq c, rfl⟩
  induction rs generalizing c with
  | nil => rfl
  | cons r t ih =>
    have h1 : cycles (r :: t) c = cycles t (cycle r.1 r.2 c) := rfl
    have h2 : cycle r.1 r.2 c = c := take_frame_state r.1 c
    rw [h1, h2, ih]

/-- C6: `unprepare` leaves the pool empty, is idempotent and total (no
failure from any state); after it, `prepare_mmapped M` succeeds whenever
the kernel accepts the buffer request, and the resulting pool does not
depend on any previously held pool — the same result is obtained from
any prior state. -/
theorem unprepare_total_idempotent (d : DeviceModel) (fuel M g : Nat)
    (c other : CaptureState) (hreq : d.reqbufsR M = .ok g) :
    unprepare (unprepare c) = unprepare c
    ∧ (unprepare c).buffers = []
    ∧ (∃ c', prepare_mmapped d fuel (unprepare c) M = .ok c')
    ∧ prepare_mmapped d fuel (unprepare c) M
        = prepare_mmapped d fuel other M := by
  refine ⟨rfl, rfl, ?_, ?_⟩
  · unfold prepare_mmapped
    rw [hreq]
    exact ⟨_, rfl⟩
  · simp [prepare_mmapped, hreq]

/-- C6 witness: releasing a one-slot pool and re-preparing two buffers
succeeds and matches a preparation from an unrelated state. -/
theorem unprepare_total_idempotent_witness :
    unprepare (unprepare ⟨[⟨0, 4096⟩]⟩) = unprepare ⟨[⟨0, 4096⟩]⟩
    ∧ (unprepare (⟨[⟨0, 4096⟩]⟩ : CaptureState)).buffers = []
    ∧ (∃ c', prepare_mmapped okDevice 4 (unprepare ⟨[⟨0, 4096⟩]⟩) 2
        = .ok c')
    ∧ prepare_mmapped okDevice 4 (unprepare ⟨[⟨0, 4096⟩]⟩) 2
        = prepare_mmapped okDevice 4 ⟨[⟨7, 7⟩]⟩ 2 :=
  unprepare_total_idempotent okDevice 4 2 2 ⟨[⟨0, 4096⟩]⟩ ⟨[⟨7, 7⟩]⟩ rfl

/-- C7: evaluation of the fd lifecycle at a concrete handle (fd 5).
`Drop` closes the fd once, and `prepare_mmapped`'s temporary `File` is
forgotten before it can close anything — both as the claim demands.
But `into_raw_fd(self)` also closes the fd: `V4l2Device` implements
`Drop` and the body neither forgets `self` nor wraps it in
`ManuallyDrop`, so the drop glue runs `libc::close(self.fd)` before the
(now dangling) fd is handed to the caller.  This contradicts the
`IntoRawFd` contract the impl claims to satisfy, which transfers
ownership to the caller, and the claim's "into_raw_fd must not close
it". -/
theorem into_raw_fd_closes_fd :
    into_raw_fd ⟨5⟩ = (5, [5])
    ∧ dropDevice ⟨5⟩ = [5]
    ∧ prepare_mmapped_closes ⟨5⟩ = [] :=
  ⟨rfl, rfl, rfl⟩

/-- C8 counterexample: the crate's `v4l2_pix_format` does not have
exactly the kernel structure's fields — it carries two extra vendor
fields (`rot_angle`, `subchannel`). -/
theorem pix_format_not_kernel_layout :
    pix_format_layout ≠ kernel_pix_format_layout := by
  decide

/-- C8 (amended): every exchanged control structure mirrors the kernel
ABI — fields in the kernel's order and widths, reserved padding
preserved, buffer-type and memory enumerations matching the kernel's
integer values — except `v4l2_pix_format`, which consists of the
kernel's pixel-format fields in kernel order followed by two
vendor-extension fields (`rot_angle` and a `subchannel` pointer). -/
theorem layouts_match_kernel_abi :
    pix_format_layout
        = kernel_pix_format_layout ++ [("rot_angle", 4), ("subchannel", 4)]
    ∧ buffer_layout = kernel_buffer_layout
    ∧ capability_layout = kernel_capability_layout
    ∧ captureparm_layout = kernel_captureparm_layout
    ∧ streamparm_layout = kernel_streamparm_layout
    ∧ frmsizeenum_layout = kernel_frmsizeenum_layout
    ∧ event_layout = kernel_event_layout
    ∧ memory_values = kernel_memory_values
    ∧ buf_type_values = kernel_buf_type_values :=
  ⟨rfl, rfl, rfl, rfl, rfl, rfl, rfl, rfl, rfl⟩

/-- C9: `take_frame` indexes the pool with the kernel-reported index
without a bounds check: whenever the dequeued descriptor's index is at
least the pool length, it panics (Rust `Vec` indexing) instead of
returning an error; with an in-range index it returns the descriptor
and the slot's region; a dequeue error is propagated as an error. -/
theorem take_frame_unchecked_index (c : CaptureState) (b : v4l2_buffer)
    (e : IoError) :
    (c.buffers.length ≤ b.index →
        take_frame (.ok b) c = (.panicked b.index, c))
    ∧ (b.index < c.buffers.length →
        ∃ r, c.buffers[b.index]? = some r
          ∧ take_frame (.ok b) c = (.ok b r, c))
    ∧ take_frame (.error e) c = (.err e, c) := by
  refine ⟨?_, ?_, rfl⟩
  · intro h
    have hg : c.buffers[b.index]? = none := List.getElem?_eq_none h
    simp [take_frame, hg]
  · intro h
    have hex : ∃ r, c.buffers[b.index]? = some r := by
      rw [List.getElem?_eq_getElem h]
      exact ⟨_, rfl⟩
    obtain ⟨r, hg⟩ := hex
    exact ⟨r, hg, by simp [take_frame, hg]⟩

/-- C9 witness: on a two-slot pool, a dequeued index of 5 panics and a
dequeued index of 1 succeeds. -/
theorem take_frame_unchecked_index_witness :
    samplePool.buffers.length ≤ (sampleBuf 5).index
    ∧ take_frame (.ok (sampleBuf 5)) samplePool
        = (.panicked (sampleBuf 5).index, samplePool)
    ∧ (sampleBuf 1).index < samplePool.buffers.length
    ∧ ∃ r, samplePool.buffers[(sampleBuf 1).index]? = some r
        ∧ take_frame (.ok (sampleBuf 1)) samplePool
            = (.ok (sampleBuf 1) r, samplePool) :=
  ⟨by decide,
   (take_frame_unchecked_index samplePool (sampleBuf 5) (.os 0)).1
     (by decide),
   by decide,
   (take_frame_unchecked_index samplePool (sampleBuf 1) (.os 0)).2.1
     (by decide)⟩

/-- C10: the enumeration iterators treat any failed call as the end of
the sequence and discard the error: an oracle faulting at index `i` is
indistinguishable from one whose enumeration genuinely ends at `i`
(first conjunct, for any element type, so it covers the format, buffer
and frame-size iterators alike); consequently a device fault at the
very start of format enumeration makes `Builder::open` report the
unsupported-format error — not the device error. -/
theorem enum_fault_is_end_of_list :
    (∀ (α : Type) (f g : Nat → Except IoError α) (i : Nat),
        (∀ j, j < i → f j = g j) →
        (∃ e, f i = .error e) → (∃ e, g i = .error e) →
        ∀ fuel, collectOk f fuel 0 = collectOk g fuel 0)
    ∧ (∀ (b : Builder) (d : DeviceModel) (fuel : Nat) (e : IoError),
        d.openR = .ok () → d.enumFmt 0 = .error e →
        Builder.openDev b d fuel = (.error .unsupportedFormat, [])) := by
  constructor
  · intro α f g i hagree hf hg fuel
    exact collectOk_congr f g i hagree hf hg fuel 0 (Nat.zero_le i)
  · intro b d fuel e hopen henum
    have h0 : collectOk d.enumFmt fuel 0 = [] :=
      collectOk_stop d.enumFmt fuel 0 ⟨e, henum⟩
    simp [Builder.openDev, hopen, h0]

/-- C10 witness: an oracle failing with EIO after one descriptor equals
one failing with ENODEV there, and a device whose format enumeration
faults immediately makes `open` report the unsupported-format error. -/
theorem enum_fault_is_end_of_list_witness :
    collectOk faultFmtsA 4 0 = collectOk faultFmtsB 4 0
    ∧ Builder.openDev (Builder.with_device "/dev/video0")
        faultyEnumDevice 4
      = (.error .unsupportedFormat, []) :=
  ⟨enum_fault_is_end_of_list.1 v4l2_fmtdesc faultFmtsA faultFmtsB 1
      (fun j hj => by
        have hj0 : j = 0 := by omega
        rw [hj0]
        rfl)
      ⟨.os 5, rfl⟩ ⟨.os 19, rfl⟩ 4,
   enum_fault_is_end_of_list.2 (Builder.with_device "/dev/video0")
     faultyEnumDevice 4 (.os 5) rfl rfl⟩

end V4l2
